import Mathlib

/-!
Formal model of the `Init` facade class of the ai-js repository
(a wrapper around the Google GenAI SDK), together with proofs of its
state-handling and pass-through properties.

The facade is embedded as a pure state-transformer: every method of the
class becomes a Lean function from an environment (the behaviour of the
external SDK, i.e. a fake external client) and a facade state to a
result, a successor state, and a trace of the calls issued to the
external client.  JavaScript `undefined`/`null` is modelled by `Option`,
a thrown `Error` by `Except.error`, and the falsiness test `!x` on a
string by equality with `""` and on an object by `Option.isNone`.
Payload and response types of the external SDK are opaque to the facade,
so they are modelled by `String`/`Nat` carriers.
-/

set_option autoImplicit false

/-- Contents payload (`ContentListUnion` in the source): opaque to the facade. -/
abbrev ContentListUnion := String

/-- Chat message payload (`PartListUnion` in the source): opaque to the facade. -/
abbrev PartListUnion := String

/-- Per-operation configuration objects: opaque to the facade, so modelled
by a single carrier. -/
abbrev Config := String

/-- Response of `models.generateContent`. -/
abbrev GenerateContentResponse := Nat

/-- Response of `models.generateImages`. -/
abbrev GenerateImagesResponse := Nat

/-- Response of `models.generateVideos`. -/
abbrev GenerateVideosOperation := Nat

/-- Response of `models.computeTokens`. -/
abbrev ComputeTokensResponse := Nat

/-- Response of `models.countTokens`. -/
abbrev CountTokensResponse := Nat

/-- Response of `models.embedContent`. -/
abbrev EmbedContentResponse := Nat

/-- A file object returned by the external files interface. -/
abbrev GenFile := Nat

/-- Response of `files.delete`. -/
abbrev DeleteFileResponse := Nat

/-- The argument of `uploadFile` (`Blob | string` in the source). -/
abbrev FileArg := String

/-- A chat object returned by `chats.create`; successive creations return
distinct objects, modelled by an allocation counter. -/
abbrev Chat := Nat

/-- The configuration bag (`GoogleGenAIOptions`): an `apiKey` entry plus
arbitrary further option entries. -/
structure GoogleGenAIOptions where
  apiKey : Option String
  extra : List (String × String)
deriving DecidableEq, Repr

/-- The external client object (`GoogleGenAI`); it is characterised by the
options value it was constructed from. -/
structure GoogleGenAI where
  opts : GoogleGenAIOptions
deriving DecidableEq, Repr

/-- The model-operations interface `client.models` of a client is a view of
that client. -/
abbrev Models := GoogleGenAI

/-- A promise still requiring resolution before use. -/
structure Promise (α : Type) where
  resolve : α
deriving DecidableEq, Repr

/-- The chat-session pair cached by the facade (field `_session` of the
source): the session handle and its generated identifier.  The handle is
`Option Chat` because the source obtains it through the optional chain
`this._genai?.chats.create(...)`, which yields `undefined` when the client
handle is absent. -/
structure Session where
  chat : Option Chat
  id : String
deriving DecidableEq, Repr

/-- The locally raised failures of the facade.  `typeError` stands for the
runtime TypeError raised by `this.chatSession.chat.sendMessage` when the
session handle is `undefined`. -/
inductive Err where
  | apiKeyNotSet
  | uploadFailed
  | fileNotFound
  | typeError
deriving DecidableEq, Repr

/-- One call issued on the external client object. -/
inductive ExtCall where
  | genContent (g : GoogleGenAI) (model : String) (contents : ContentListUnion) (config : Option Config)
  | genContentStream (g : GoogleGenAI) (model : String) (contents : ContentListUnion) (config : Option Config)
  | genImages (g : GoogleGenAI) (model : String) (prompt : String) (config : Option Config)
  | genVideos (g : GoogleGenAI) (model : String) (prompt : String) (config : Option Config)
  | compTokens (g : GoogleGenAI) (model : String) (contents : ContentListUnion) (config : Option Config)
  | cntTokens (g : GoogleGenAI) (model : String) (contents : ContentListUnion) (config : Option Config)
  | embContent (g : GoogleGenAI) (model : String) (contents : ContentListUnion) (config : Option Config)
  | chatsCreate (g : GoogleGenAI) (model : String)
  | sendMessage (chat : Chat) (msg : PartListUnion)
  | sendMessageStream (chat : Chat) (msg : PartListUnion)
  | filesUpload (g : GoogleGenAI) (file : FileArg) (config : Option Config)
  | filesGet (g : GoogleGenAI) (name : String) (config : Option Config)
  | filesDelete (g : GoogleGenAI) (name : String) (config : Option Config)
deriving DecidableEq, Repr

/-- The behaviour of the external SDK: what each call on the external
client returns (a fake external client).  `uuids` is the stream of values
produced by successive `crypto.randomUUID()` calls; the files operations
return `none` when the external call yields an empty/falsy result. -/
structure Env where
  uuids : Nat → String
  genContent : GoogleGenAI → String → ContentListUnion → Option Config → GenerateContentResponse
  genContentStream : GoogleGenAI → String → ContentListUnion → Option Config → List GenerateContentResponse
  genImages : GoogleGenAI → String → String → Option Config → GenerateImagesResponse
  genVideos : GoogleGenAI → String → String → Option Config → GenerateVideosOperation
  compTokens : GoogleGenAI → String → ContentListUnion → Option Config → ComputeTokensResponse
  cntTokens : GoogleGenAI → String → ContentListUnion → Option Config → CountTokensResponse
  embContent : GoogleGenAI → String → ContentListUnion → Option Config → EmbedContentResponse
  sendMessage : Chat → PartListUnion → GenerateContentResponse
  sendMessageStream : Chat → PartListUnion → List GenerateContentResponse
  filesUpload : GoogleGenAI → FileArg → Option Config → Option GenFile
  filesGet : GoogleGenAI → String → Option Config → Option GenFile
  filesDelete : GoogleGenAI → String → Option Config → Option DeleteFileResponse

/-- The mutable state of an `Init` instance.  `chatCtr` and `uuidCtr` are
allocation counters: `chatCtr` gives the identity of the next chat object
`chats.create` returns, `uuidCtr` indexes the next `crypto.randomUUID()`
value in `Env.uuids`. -/
structure InitState where
  apiKey : String
  options : GoogleGenAIOptions
  genai : Option GoogleGenAI
  modelVariant : String
  chat : Option Chat
  session : Option Session
  chatCtr : Nat
  uuidCtr : Nat
deriving DecidableEq, Repr

namespace Init

/-- The constructor of `Init` (source lines 58-66): stores the arguments,
unconditionally overwrites `_options.apiKey` with the supplied key, and
eagerly replaces the supplied `_genai` argument by a freshly constructed
`new GoogleGenAI(this._options)`. -/
def new (apiKey : String) (options : GoogleGenAIOptions) (genai : Option GoogleGenAI)
    (modelVariant : String) : InitState :=
  let o : GoogleGenAIOptions := { options with apiKey := some apiKey }
  { apiKey := apiKey
    options := o
    genai := some (GoogleGenAI.mk o)
    modelVariant := modelVariant
    chat := none
    session := none
    chatCtr := 0
    uuidCtr := 0 }

/-- The `apiKey` getter (source lines 72-74). -/
def getApiKey (s : InitState) : String :=
  s.apiKey

/-- The `apiKey` setter (source lines 81-83): assigns `this._apiKey` and
nothing else. -/
def setApiKey (s : InitState) (value : String) : InitState :=
  { s with apiKey := value }

/-- The `models` getter (source lines 89-99): throws if the key is unset,
lazily constructs the client from `this._options` if absent, and returns
that client's model-operations interface. -/
def models (s : InitState) : Except Err (Models × InitState) :=
  if s.apiKey = "" then
    Except.error Err.apiKeyNotSet
  else
    match s.genai with
    | none =>
      let g : GoogleGenAI := GoogleGenAI.mk s.options
      Except.ok (g, { s with genai := some g })
    | some g => Except.ok (g, s)

/-- The client the facade would construct in its lazy-initialisation
branches: the expression `new GoogleGenAI(this._options)` of source
lines 95, 191, 231, 270, 310, 348, 387 and 425. -/
def lazyClient (s : InitState) : GoogleGenAI :=
  GoogleGenAI.mk s.options

/-- The `options` getter (source lines 105-107). -/
def getOptions (s : InitState) : GoogleGenAIOptions :=
  s.options

/-- `createChatSession` (source lines 152-164): unconditionally creates a
new chat via `this._genai?.chats.create(...)`, installs a fresh session
pair tagged with `crypto.randomUUID()`, and returns it. -/
def createChatSession (env : Env) (s : InitState) :
    Session × InitState × List ExtCall :=
  match s.genai with
  | none =>
    let s1 : InitState := { s with chat := none }
    let sess : Session := { chat := none, id := env.uuids s1.uuidCtr }
    (sess, { s1 with session := some sess, uuidCtr := s1.uuidCtr + 1 }, [])
  | some g =>
    let c : Chat := s.chatCtr
    let s1 : InitState := { s with chat := some c, chatCtr := s.chatCtr + 1 }
    let sess : Session := { chat := some c, id := env.uuids s1.uuidCtr }
    (sess, { s1 with session := some sess, uuidCtr := s1.uuidCtr + 1 },
      [ExtCall.chatsCreate g s.modelVariant])

/-- The `chatSession` getter (source lines 123-136): if `this.chat` is
absent it first creates a chat, then, if `this._session` is absent, it
populates it through `this.createChatSession()`, and returns the cached
session. -/
def chatSession (env : Env) (s : InitState) :
    Session × InitState × List ExtCall :=
  let first : InitState × List ExtCall :=
    match s.chat with
    | some _ => (s, [])
    | none =>
      match s.genai with
      | none => (s, [])
      | some g =>
        ({ s with chat := some s.chatCtr, chatCtr := s.chatCtr + 1 },
          [ExtCall.chatsCreate g s.modelVariant])
  match first with
  | (s1, t1) =>
    match s1.session with
    | some sess => (sess, s1, t1)
    | none =>
      match createChatSession env s1 with
      | (sess, s2, t2) => (sess, s2, t1 ++ t2)

/-- `generateContent` (source lines 185-201): key guard, lazy client
construction, then one awaited call through `this.models`, returned
verbatim. -/
def generateContent (env : Env) (s : InitState) (contents : ContentListUnion)
    (config : Option Config) :
    Except Err GenerateContentResponse × InitState × List ExtCall :=
  if s.apiKey = "" then
    (Except.error Err.apiKeyNotSet, s, [])
  else
    let s1 : InitState :=
      match s.genai with
      | none => { s with genai := some (GoogleGenAI.mk s.options) }
      | some _ => s
    match models s1 with
    | Except.error e => (Except.error e, s1, [])
    | Except.ok (g, s2) =>
      (Except.ok (env.genContent g s2.modelVariant contents config), s2,
        [ExtCall.genContent g s2.modelVariant contents config])

/-- `generateContentStream` (source lines 225-241): like `generateContent`
but the external call yields a producer of response chunks, returned
verbatim. -/
def generateContentStream (env : Env) (s : InitState) (contents : ContentListUnion)
    (config : Option Config) :
    Except Err (List GenerateContentResponse) × InitState × List ExtCall :=
  if s.apiKey = "" then
    (Except.error Err.apiKeyNotSet, s, [])
  else
    let s1 : InitState :=
      match s.genai with
      | none => { s with genai := some (GoogleGenAI.mk s.options) }
      | some _ => s
    match models s1 with
    | Except.error e => (Except.error e, s1, [])
    | Except.ok (g, s2) =>
      (Except.ok (env.genContentStream g s2.modelVariant contents config), s2,
        [ExtCall.genContentStream g s2.modelVariant contents config])

/-- `generateImages` (source lines 264-280). -/
def generateImages (env : Env) (s : InitState) (prompt : String)
    (config : Option Config) :
    Except Err GenerateImagesResponse × InitState × List ExtCall :=
  if s.apiKey = "" then
    (Except.error Err.apiKeyNotSet, s, [])
  else
    let s1 : InitState :=
      match s.genai with
      | none => { s with genai := some (GoogleGenAI.mk s.options) }
      | some _ => s
    match models s1 with
    | Except.error e => (Except.error e, s1, [])
    | Except.ok (g, s2) =>
      (Except.ok (env.genImages g s2.modelVariant prompt config), s2,
        [ExtCall.genImages g s2.modelVariant prompt config])

/-- `generateVideos` (source lines 304-320). -/
def generateVideos (env : Env) (s : InitState) (prompt : String)
    (config : Option Config) :
    Except Err GenerateVideosOperation × InitState × List ExtCall :=
  if s.apiKey = "" then
    (Except.error Err.apiKeyNotSet, s, [])
  else
    let s1 : InitState :=
      match s.genai with
      | none => { s with genai := some (GoogleGenAI.mk s.options) }
      | some _ => s
    match models s1 with
    | Except.error e => (Except.error e, s1, [])
    | Except.ok (g, s2) =>
      (Except.ok (env.genVideos g s2.modelVariant prompt config), s2,
        [ExtCall.genVideos g s2.modelVariant prompt config])

/-- `computeTokens` (source lines 342-358): the one operation whose
external call is returned without `await`; the async function therefore
hands the caller a promise that still requires resolution. -/
def computeTokens (env : Env) (s : InitState) (contents : ContentListUnion)
    (config : Option Config) :
    Except Err (Promise ComputeTokensResponse) × InitState × List ExtCall :=
  if s.apiKey = "" then
    (Except.error Err.apiKeyNotSet, s, [])
  else
    let s1 : InitState :=
      match s.genai with
      | none => { s with genai := some (GoogleGenAI.mk s.options) }
      | some _ => s
    match models s1 with
    | Except.error e => (Except.error e, s1, [])
    | Except.ok (g, s2) =>
      (Except.ok (Promise.mk (env.compTokens g s2.modelVariant contents config)), s2,
        [ExtCall.compTokens g s2.modelVariant contents config])

/-- Modelled from the spec: the awaited variant of the token-computation
operation ("callers must treat its result as a value that still requires
resolution before use" — this is the same operation with the external
call awaited before return, the pattern every other operation follows). -/
def computeTokensAwaited (env : Env) (s : InitState) (contents : ContentListUnion)
    (config : Option Config) :
    Except Err ComputeTokensResponse × InitState × List ExtCall :=
  if s.apiKey = "" then
    (Except.error Err.apiKeyNotSet, s, [])
  else
    let s1 : InitState :=
      match s.genai with
      | none => { s with genai := some (GoogleGenAI.mk s.options) }
      | some _ => s
    match models s1 with
    | Except.error e => (Except.error e, s1, [])
    | Except.ok (g, s2) =>
      (Except.ok (env.compTokens g s2.modelVariant contents config), s2,
        [ExtCall.compTokens g s2.modelVariant contents config])

/-- `countTokens` (source lines 381-397). -/
def countTokens (env : Env) (s : InitState) (contents : ContentListUnion)
    (config : Option Config) :
    Except Err CountTokensResponse × InitState × List ExtCall :=
  if s.apiKey = "" then
    (Except.error Err.apiKeyNotSet, s, [])
  else
    let s1 : InitState :=
      match s.genai with
      | none => { s with genai := some (GoogleGenAI.mk s.options) }
      | some _ => s
    match models s1 with
    | Except.error e => (Except.error e, s1, [])
    | Except.ok (g, s2) =>
      (Except.ok (env.cntTokens g s2.modelVariant contents config), s2,
        [ExtCall.cntTokens g s2.modelVariant contents config])

/-- `embedContent` (source lines 419-435). -/
def embedContent (env : Env) (s : InitState) (contents : ContentListUnion)
    (config : Option Config) :
    Except Err EmbedContentResponse × InitState × List ExtCall :=
  if s.apiKey = "" then
    (Except.error Err.apiKeyNotSet, s, [])
  else
    let s1 : InitState :=
      match s.genai with
      | none => { s with genai := some (GoogleGenAI.mk s.options) }
      | some _ => s
    match models s1 with
    | Except.error e => (Except.error e, s1, [])
    | Except.ok (g, s2) =>
      (Except.ok (env.embContent g s2.modelVariant contents config), s2,
        [ExtCall.embContent g s2.modelVariant contents config])

/-- `chatMessage` (source lines 452-456): resolves the cached chat session
(creating it if necessary) and sends the message through it.  There is no
API-key guard on this path. -/
def chatMessage (env : Env) (s : InitState) (message : PartListUnion) :
    Except Err GenerateContentResponse × InitState × List ExtCall :=
  match chatSession env s with
  | (sess, s1, t1) =>
    match sess.chat with
    | none => (Except.error Err.typeError, s1, t1)
    | some c =>
      (Except.ok (env.sendMessage c message), s1, t1 ++ [ExtCall.sendMessage c message])

/-- `chatMessageStream` (source lines 475-479). -/
def chatMessageStream (env : Env) (s : InitState) (message : PartListUnion) :
    Except Err (List GenerateContentResponse) × InitState × List ExtCall :=
  match chatSession env s with
  | (sess, s1, t1) =>
    match sess.chat with
    | none => (Except.error Err.typeError, s1, t1)
    | some c =>
      (Except.ok (env.sendMessageStream c message), s1,
        t1 ++ [ExtCall.sendMessageStream c message])

/-- `uploadFile` (source lines 496-507): calls `this._genai?.files.upload`
directly (no key guard) and throws "Upload failed" when the call yields a
falsy result. -/
def uploadFile (env : Env) (s : InitState) (file : FileArg) (config : Option Config) :
    Except Err GenFile × InitState × List ExtCall :=
  match s.genai with
  | none => (Except.error Err.uploadFailed, s, [])
  | some g =>
    match env.filesUpload g file config with
    | none => (Except.error Err.uploadFailed, s, [ExtCall.filesUpload g file config])
    | some f => (Except.ok f, s, [ExtCall.filesUpload g file config])

/-- `getFile` (source lines 525-536): calls `this._genai?.files.get`
directly and throws "File not found" when the call yields a falsy
result. -/
def getFile (env : Env) (s : InitState) (filename : String) (config : Option Config) :
    Except Err GenFile × InitState × List ExtCall :=
  match s.genai with
  | none => (Except.error Err.fileNotFound, s, [])
  | some g =>
    match env.filesGet g filename config with
    | none => (Except.error Err.fileNotFound, s, [ExtCall.filesGet g filename config])
    | some f => (Except.ok f, s, [ExtCall.filesGet g filename config])

/-- `deleteFile` (source lines 538-549): calls `this._genai?.files.delete`
directly and throws "File not found" when the call yields a falsy
result. -/
def deleteFile (env : Env) (s : InitState) (filename : String) (config : Option Config) :
    Except Err DeleteFileResponse × InitState × List ExtCall :=
  match s.genai with
  | none => (Except.error Err.fileNotFound, s, [])
  | some g =>
    match env.filesDelete g filename config with
    | none => (Except.error Err.fileNotFound, s, [ExtCall.filesDelete g filename config])
    | some r => (Except.ok r, s, [ExtCall.filesDelete g filename config])

end Init

/-- One invocation of a facade operation (arguments included), used to
quantify over arbitrary call sequences on an instance. -/
inductive Op where
  | setApiKey (v : String)
  | getModels
  | getChatSession
  | newChatSession
  | generateContent (c : ContentListUnion) (cfg : Option Config)
  | generateContentStream (c : ContentListUnion) (cfg : Option Config)
  | generateImages (p : String) (cfg : Option Config)
  | generateVideos (p : String) (cfg : Option Config)
  | computeTokens (c : ContentListUnion) (cfg : Option Config)
  | countTokens (c : ContentListUnion) (cfg : Option Config)
  | embedContent (c : ContentListUnion) (cfg : Option Config)
  | chatMessage (m : PartListUnion)
  | chatMessageStream (m : PartListUnion)
  | uploadFile (f : FileArg) (cfg : Option Config)
  | getFile (n : String) (cfg : Option Config)
  | deleteFile (n : String) (cfg : Option Config)
deriving DecidableEq, Repr

namespace Init

/-- The state transition of one facade operation: the successor state the
operation leaves behind (its result and trace projected away). -/
def step (env : Env) (s : InitState) : Op → InitState
  | Op.setApiKey v => setApiKey s v
  | Op.getModels =>
    match models s with
    | Except.error _ => s
    | Except.ok (_, s1) => s1
  | Op.getChatSession => (chatSession env s).2.1
  | Op.newChatSession => (createChatSession env s).2.1
  | Op.generateContent c cfg => (generateContent env s c cfg).2.1
  | Op.generateContentStream c cfg => (generateContentStream env s c cfg).2.1
  | Op.generateImages p cfg => (generateImages env s p cfg).2.1
  | Op.generateVideos p cfg => (generateVideos env s p cfg).2.1
  | Op.computeTokens c cfg => (computeTokens env s c cfg).2.1
  | Op.countTokens c cfg => (countTokens env s c cfg).2.1
  | Op.embedContent c cfg => (embedContent env s c cfg).2.1
  | Op.chatMessage m => (chatMessage env s m).2.1
  | Op.chatMessageStream m => (chatMessageStream env s m).2.1
  | Op.uploadFile f cfg => (uploadFile env s f cfg).2.1
  | Op.getFile n cfg => (getFile env s n cfg).2.1
  | Op.deleteFile n cfg => (deleteFile env s n cfg).2.1

/-- The state after a whole sequence of facade operations. -/
def run (env : Env) (s : InitState) (ops : List Op) : InitState :=
  ops.foldl (step env) s

end Init

/-- A concrete fake external client used to exercise the model on closed
inputs. -/
def envW : Env where
  uuids := fun n => String.append "uuid-" (toString n)
  genContent := fun _ _ _ _ => 1
  genContentStream := fun _ _ _ _ => [1, 2]
  genImages := fun _ _ _ _ => 3
  genVideos := fun _ _ _ _ => 4
  compTokens := fun _ _ _ _ => 5
  cntTokens := fun _ _ _ _ => 6
  embContent := fun _ _ _ _ => 7
  sendMessage := fun _ _ => 8
  sendMessageStream := fun _ _ => [9]
  filesUpload := fun _ _ _ => some 10
  filesGet := fun _ _ _ => some 11
  filesDelete := fun _ _ _ => some 12

/-- An empty configuration bag. -/
def optsW : GoogleGenAIOptions where
  apiKey := none
  extra := []

/-- An instance constructed with the empty credential. -/
def sEmptyKey : InitState :=
  Init.new "" optsW none "gemini-1.5-flash"

/-- An instance constructed with a non-empty credential. -/
def sKey : InitState :=
  Init.new "k" optsW none "gemini-1.5-flash"

/-- The client handle `sKey` holds after construction. -/
def gKey : GoogleGenAI :=
  GoogleGenAI.mk { apiKey := some "k", extra := [] }

/-- A state whose chat-session slot is already populated. -/
def sWithSession : InitState where
  apiKey := "k"
  options := { apiKey := some "k", extra := [] }
  genai := some gKey
  modelVariant := "gemini-1.5-flash"
  chat := some 0
  session := some { chat := some 0, id := "orig-id" }
  chatCtr := 1
  uuidCtr := 0


/-- C3: the credential setter changes only the stored credential field;
the configuration bag (including its `apiKey` entry), the client handle,
the chat slot, the session slot and the model variant are unchanged by the
write. -/
theorem setter_frame_effect (s : InitState) (v : String) :
    (Init.setApiKey s v).apiKey = v
  ∧ (Init.setApiKey s v).options = s.options
  ∧ (Init.setApiKey s v).options.apiKey = s.options.apiKey
  ∧ (Init.setApiKey s v).genai = s.genai
  ∧ (Init.setApiKey s v).chat = s.chat
  ∧ (Init.setApiKey s v).session = s.session
  ∧ (Init.setApiKey s v).modelVariant = s.modelVariant := by
  refine ⟨rfl, rfl, rfl, rfl, rfl, rfl, rfl⟩

/-- C6: after construction with credential `k`, bag `o`, pre-built handle
`c` and model `m`, the bag's credential entry equals `some k`
(unconditionally overwritten), the stored client handle is a fresh client
built from the merged bag, and the constructed state is independent of the
supplied pre-built handle `c`, which is therefore discarded and can never
be the handle any later operation uses. -/
theorem constructor_merges_and_discards (k m : String) (o : GoogleGenAIOptions)
    (c c' : Option GoogleGenAI) :
    (Init.new k o c m).options.apiKey = some k
  ∧ (Init.new k o c m).genai = some (GoogleGenAI.mk { o with apiKey := some k })
  ∧ Init.new k o c m = Init.new k o c' m := by
  refine ⟨rfl, rfl, rfl⟩

/-- C2 counterexample: construct an instance with credential "old-key" and
set the credential to "new-key"; the client that any subsequent
construction performed by the facade would build (the expression
`new GoogleGenAI(this._options)` of the lazy branches) still carries
"old-key", not the new credential — and forcing the lazy branch of the
`models` accessor indeed builds a client carrying "old-key". -/
theorem setter_not_reflected_counterexample :
    (Init.lazyClient (Init.setApiKey (Init.new "old-key" optsW none "gemini-1.5-flash") "new-key")).opts.apiKey
      ≠ some "new-key"
  ∧ (Init.lazyClient (Init.setApiKey (Init.new "old-key" optsW none "gemini-1.5-flash") "new-key")).opts.apiKey
      = some "old-key"
  ∧ Init.models { Init.setApiKey (Init.new "old-key" optsW none "gemini-1.5-flash") "new-key" with genai := none }
      = Except.ok (GoogleGenAI.mk { apiKey := some "old-key", extra := [] },
          { Init.setApiKey (Init.new "old-key" optsW none "gemini-1.5-flash") "new-key" with
              genai := some (GoogleGenAI.mk { apiKey := some "old-key", extra := [] }) }) := by
  refine ⟨by decide, rfl, rfl⟩

/-- C2 amended: after the credential setter is invoked, any client the
facade would subsequently construct is built from the configuration bag,
which still carries the construction-time credential — the updated
credential is not reflected in later client construction. -/
theorem setter_not_reflected_in_construction (k v m : String) (o : GoogleGenAIOptions)
    (c : Option GoogleGenAI) :
    Init.lazyClient (Init.setApiKey (Init.new k o c m) v) = Init.lazyClient (Init.new k o c m)
  ∧ (Init.lazyClient (Init.setApiKey (Init.new k o c m) v)).opts.apiKey = some k := by
  refine ⟨rfl, rfl⟩

/-- C9: the unawaited token-computation operation is equivalent to its
awaited variant: resolving the promise a caller obtains yields exactly the
value the awaited form returns, and both leave the same state and issue
the same external calls. -/
theorem computeTokens_await_equiv (env : Env) (s : InitState)
    (contents : ContentListUnion) (config : Option Config) :
    (Init.computeTokens env s contents config).1.map Promise.resolve
      = (Init.computeTokensAwaited env s contents config).1
  ∧ (Init.computeTokens env s contents config).2
      = (Init.computeTokensAwaited env s contents config).2 := by
  unfold Init.computeTokens Init.computeTokensAwaited
  by_cases hk : s.apiKey = ""
  · simp [hk, Except.map]
  · cases hg : s.genai with
    | none =>
      simp only [hk, if_neg, ite_false, hg]
      cases hm : Init.models { s with genai := some (GoogleGenAI.mk s.options) } with
      | error e => simp [hm, Except.map]
      | ok p => cases p with
        | mk g s2 => simp [hm, Except.map]
    | some g0 =>
      simp only [hk, ite_false, hg]
      cases hm : Init.models s with
      | error e => simp [hm, Except.map]
      | ok p => cases p with
        | mk g s2 => simp [hm, Except.map]

/-- Helper: `chatMessage` never raises the unset-credential failure (its
only locally raised failures are the session TypeError, and it otherwise
returns the external call's result). -/
theorem chatMessage_not_key_error (env : Env) (s : InitState) (msg : PartListUnion) :
    (Init.chatMessage env s msg).1 ≠ Except.error Err.apiKeyNotSet := by
  rcases hcs : Init.chatSession env s with ⟨sess, s1, t1⟩
  cases hc : sess.chat with
  | none => simp [Init.chatMessage, hcs, hc]
  | some c => simp [Init.chatMessage, hcs, hc]

/-- Helper: `chatMessageStream` never raises the unset-credential
failure. -/
theorem chatMessageStream_not_key_error (env : Env) (s : InitState) (msg : PartListUnion) :
    (Init.chatMessageStream env s msg).1 ≠ Except.error Err.apiKeyNotSet := by
  rcases hcs : Init.chatSession env s with ⟨sess, s1, t1⟩
  cases hc : sess.chat with
  | none => simp [Init.chatMessageStream, hcs, hc]
  | some c => simp [Init.chatMessageStream, hcs, hc]

/-- Helper: `uploadFile` never raises the unset-credential failure. -/
theorem uploadFile_not_key_error (env : Env) (s : InitState) (fa : FileArg) (cfg : Option Config) :
    (Init.uploadFile env s fa cfg).1 ≠ Except.error Err.apiKeyNotSet := by
  cases hg : s.genai with
  | none => simp [Init.uploadFile, hg]
  | some g => cases hu : env.filesUpload g fa cfg <;> simp [Init.uploadFile, hg, hu]

/-- Helper: `getFile` never raises the unset-credential failure. -/
theorem getFile_not_key_error (env : Env) (s : InitState) (fname : String) (cfg : Option Config) :
    (Init.getFile env s fname cfg).1 ≠ Except.error Err.apiKeyNotSet := by
  cases hg : s.genai with
  | none => simp [Init.getFile, hg]
  | some g => cases hu : env.filesGet g fname cfg <;> simp [Init.getFile, hg, hu]

/-- Helper: `deleteFile` never raises the unset-credential failure. -/
theorem deleteFile_not_key_error (env : Env) (s : InitState) (fname : String) (cfg : Option Config) :
    (Init.deleteFile env s fname cfg).1 ≠ Except.error Err.apiKeyNotSet := by
  cases hg : s.genai with
  | none => simp [Init.deleteFile, hg]
  | some g => cases hu : env.filesDelete g fname cfg <;> simp [Init.deleteFile, hg, hu]

/-- C1 amended: when the credential is the empty string, the seven
generation operations (content, streaming content, images, videos, token
computation, token counting, embedding) raise the unset-credential
failure with no external call issued and the state unchanged; the file
operations and the chat-messaging operations perform no credential check
and never raise that failure. -/
theorem keyGuard_generation_only (env : Env) (s : InitState)
    (contents : ContentListUnion) (prompt : String) (fa : FileArg) (fname : String)
    (cfg : Option Config) (msg : PartListUnion) (h : s.apiKey = "") :
    Init.generateContent env s contents cfg = (Except.error Err.apiKeyNotSet, s, [])
  ∧ Init.generateContentStream env s contents cfg = (Except.error Err.apiKeyNotSet, s, [])
  ∧ Init.generateImages env s prompt cfg = (Except.error Err.apiKeyNotSet, s, [])
  ∧ Init.generateVideos env s prompt cfg = (Except.error Err.apiKeyNotSet, s, [])
  ∧ Init.computeTokens env s contents cfg = (Except.error Err.apiKeyNotSet, s, [])
  ∧ Init.countTokens env s contents cfg = (Except.error Err.apiKeyNotSet, s, [])
  ∧ Init.embedContent env s contents cfg = (Except.error Err.apiKeyNotSet, s, [])
  ∧ (Init.uploadFile env s fa cfg).1 ≠ Except.error Err.apiKeyNotSet
  ∧ (Init.getFile env s fname cfg).1 ≠ Except.error Err.apiKeyNotSet
  ∧ (Init.deleteFile env s fname cfg).1 ≠ Except.error Err.apiKeyNotSet
  ∧ (Init.chatMessage env s msg).1 ≠ Except.error Err.apiKeyNotSet
  ∧ (Init.chatMessageStream env s msg).1 ≠ Except.error Err.apiKeyNotSet := by
  refine ⟨?_, ?_, ?_, ?_, ?_, ?_, ?_, ?_, ?_, ?_, ?_, ?_⟩
  · simp [Init.generateContent, h]
  · simp [Init.generateContentStream, h]
  · simp [Init.generateImages, h]
  · simp [Init.generateVideos, h]
  · simp [Init.computeTokens, h]
  · simp [Init.countTokens, h]
  · simp [Init.embedContent, h]
  · exact uploadFile_not_key_error env s fa cfg
  · exact getFile_not_key_error env s fname cfg
  · exact deleteFile_not_key_error env s fname cfg
  · exact chatMessage_not_key_error env s msg
  · exact chatMessageStream_not_key_error env s msg

/-- C1 witness: on an instance constructed with the empty credential,
content generation raises the unset-credential failure with no external
call. -/
theorem keyGuard_generation_only_witness :
    sEmptyKey.apiKey = ""
  ∧ Init.generateContent envW sEmptyKey "hello" none
      = (Except.error Err.apiKeyNotSet, sEmptyKey, []) :=
  ⟨rfl, (keyGuard_generation_only envW sEmptyKey "hello" "p" "f" "n" none "m" rfl).1⟩

/-- C1 counterexample: on an instance constructed with the empty
credential, `uploadFile` does not raise the unset-credential failure: it
invokes `files.upload` on the external client and returns its result. -/
theorem keyGuard_missing_counterexample :
    sEmptyKey.apiKey = ""
  ∧ (Init.uploadFile envW sEmptyKey "payload" none).1 = Except.ok 10
  ∧ (Init.uploadFile envW sEmptyKey "payload" none).2.2
      = [ExtCall.filesUpload (GoogleGenAI.mk { apiKey := some "", extra := [] }) "payload" none] := by
  refine ⟨rfl, rfl, rfl⟩

/-- C7: each file operation raises its local failure exactly when the
corresponding external files call yields an empty result, and otherwise
returns the external call's result unmodified (one call, state
unchanged). -/
theorem file_ops_error_iff (env : Env) (s : InitState) (g : GoogleGenAI)
    (fa : FileArg) (fname dname : String) (cfg : Option Config)
    (h : s.genai = some g) :
    ((Init.uploadFile env s fa cfg).1 = Except.error Err.uploadFailed
      ↔ env.filesUpload g fa cfg = none)
  ∧ (∀ r, env.filesUpload g fa cfg = some r →
      Init.uploadFile env s fa cfg = (Except.ok r, s, [ExtCall.filesUpload g fa cfg]))
  ∧ ((Init.getFile env s fname cfg).1 = Except.error Err.fileNotFound
      ↔ env.filesGet g fname cfg = none)
  ∧ (∀ r, env.filesGet g fname cfg = some r →
      Init.getFile env s fname cfg = (Except.ok r, s, [ExtCall.filesGet g fname cfg]))
  ∧ ((Init.deleteFile env s dname cfg).1 = Except.error Err.fileNotFound
      ↔ env.filesDelete g dname cfg = none)
  ∧ (∀ r, env.filesDelete g dname cfg = some r →
      Init.deleteFile env s dname cfg = (Except.ok r, s, [ExtCall.filesDelete g dname cfg])) := by
  refine ⟨?_, ?_, ?_, ?_, ?_, ?_⟩
  · cases hu : env.filesUpload g fa cfg <;> simp [Init.uploadFile, h, hu]
  · intro r hr
    simp [Init.uploadFile, h, hr]
  · cases hu : env.filesGet g fname cfg <;> simp [Init.getFile, h, hu]
  · intro r hr
    simp [Init.getFile, h, hr]
  · cases hu : env.filesDelete g dname cfg <;> simp [Init.deleteFile, h, hu]
  · intro r hr
    simp [Init.deleteFile, h, hr]

/-- C7 witness: on a freshly constructed instance and the concrete fake
client, the upload-failure condition is equivalent to the external call
yielding no result (here it yields a file, so no failure). -/
theorem file_ops_error_iff_witness :
    sKey.genai = some gKey
  ∧ ((Init.uploadFile envW sKey "f" none).1 = Except.error Err.uploadFailed
      ↔ envW.filesUpload gKey "f" none = none) :=
  ⟨rfl, (file_ops_error_iff envW sKey gKey "f" "n" "d" none rfl).1⟩

/-- C8: with a non-empty credential and the client handle present, each of
the seven generation operations issues exactly one call on the external
model-operations interface and returns that call's response unchanged,
leaving the state untouched (for token computation the response is the
resolution of the returned promise). -/
theorem generation_pass_through (env : Env) (s : InitState) (g : GoogleGenAI)
    (contents : ContentListUnion) (prompt : String) (cfg : Option Config)
    (hk : s.apiKey ≠ "") (hg : s.genai = some g) :
    Init.generateContent env s contents cfg
      = (Except.ok (env.genContent g s.modelVariant contents cfg), s,
          [ExtCall.genContent g s.modelVariant contents cfg])
  ∧ Init.generateContentStream env s contents cfg
      = (Except.ok (env.genContentStream g s.modelVariant contents cfg), s,
          [ExtCall.genContentStream g s.modelVariant contents cfg])
  ∧ Init.generateImages env s prompt cfg
      = (Except.ok (env.genImages g s.modelVariant prompt cfg), s,
          [ExtCall.genImages g s.modelVariant prompt cfg])
  ∧ Init.generateVideos env s prompt cfg
      = (Except.ok (env.genVideos g s.modelVariant prompt cfg), s,
          [ExtCall.genVideos g s.modelVariant prompt cfg])
  ∧ Init.computeTokens env s contents cfg
      = (Except.ok (Promise.mk (env.compTokens g s.modelVariant contents cfg)), s,
          [ExtCall.compTokens g s.modelVariant contents cfg])
  ∧ Init.countTokens env s contents cfg
      = (Except.ok (env.cntTokens g s.modelVariant contents cfg), s,
          [ExtCall.cntTokens g s.modelVariant contents cfg])
  ∧ Init.embedContent env s contents cfg
      = (Except.ok (env.embContent g s.modelVariant contents cfg), s,
          [ExtCall.embContent g s.modelVariant contents cfg]) := by
  refine ⟨?_, ?_, ?_, ?_, ?_, ?_, ?_⟩
  · simp [Init.generateContent, Init.models, hk, hg]
  · simp [Init.generateContentStream, Init.models, hk, hg]
  · simp [Init.generateImages, Init.models, hk, hg]
  · simp [Init.generateVideos, Init.models, hk, hg]
  · simp [Init.computeTokens, Init.models, hk, hg]
  · simp [Init.countTokens, Init.models, hk, hg]
  · simp [Init.embedContent, Init.models, hk, hg]

/-- C8 witness: on a freshly constructed instance with credential "k" and
the concrete fake client, content generation returns the canned response
with exactly one external call. -/
theorem generation_pass_through_witness :
    sKey.apiKey ≠ ""
  ∧ sKey.genai = some gKey
  ∧ Init.generateContent envW sKey "hello" none
      = (Except.ok (envW.genContent gKey sKey.modelVariant "hello" none), sKey,
          [ExtCall.genContent gKey sKey.modelVariant "hello" none]) :=
  ⟨by decide, rfl,
    (generation_pass_through envW sKey gKey "hello" "p" none (by decide) rfl).1⟩

/-- Helper: when the cached session slot is populated, the `chatSession`
getter returns exactly the cached pair and leaves the slot unchanged. -/
theorem chatSession_preserves (env : Env) (s : InitState) (sess : Session)
    (h : s.session = some sess) :
    (Init.chatSession env s).1 = sess
  ∧ (Init.chatSession env s).2.1.session = some sess := by
  cases hc : s.chat with
  | some c => constructor <;> simp [Init.chatSession, hc, h]
  | none => cases hg : s.genai with
    | none => constructor <;> simp [Init.chatSession, hc, hg, h]
    | some g => constructor <;> simp [Init.chatSession, hc, hg, h]

/-- Helper: `createChatSession` always installs a freshly tagged session
in the slot (identifier drawn at the pre-state uuid position). -/
theorem createChatSession_fresh (env : Env) (s : InitState) :
    ∃ c, (Init.createChatSession env s).2.1.session
      = some { chat := c, id := env.uuids s.uuidCtr } := by
  cases hg : s.genai with
  | none => exact ⟨none, by simp [Init.createChatSession, hg]⟩
  | some g => exact ⟨some s.chatCtr, by simp [Init.createChatSession, hg]⟩

/-- Helper: when the slot is empty, the `chatSession` getter installs a
freshly tagged session. -/
theorem chatSession_fresh (env : Env) (s : InitState) (h : s.session = none) :
    ∃ c, (Init.chatSession env s).2.1.session
      = some { chat := c, id := env.uuids s.uuidCtr } := by
  cases hc : s.chat with
  | some c => cases hg : s.genai with
    | none => exact ⟨none, by simp [Init.chatSession, Init.createChatSession, hc, hg, h]⟩
    | some g =>
      exact ⟨some s.chatCtr, by simp [Init.chatSession, Init.createChatSession, hc, hg, h]⟩
  | none => cases hg : s.genai with
    | none => exact ⟨none, by simp [Init.chatSession, Init.createChatSession, hc, hg, h]⟩
    | some g =>
      exact ⟨some (s.chatCtr + 1),
        by simp [Init.chatSession, Init.createChatSession, hc, hg, h]⟩

/-- Helper: `chatMessage` leaves exactly the state the `chatSession`
getter leaves. -/
theorem chatMessage_state (env : Env) (s : InitState) (m : PartListUnion) :
    (Init.chatMessage env s m).2.1 = (Init.chatSession env s).2.1 := by
  rcases hcs : Init.chatSession env s with ⟨sess, s1, t1⟩
  cases hc : sess.chat <;> simp [Init.chatMessage, hcs, hc]

/-- Helper: `chatMessageStream` leaves exactly the state the `chatSession`
getter leaves. -/
theorem chatMessageStream_state (env : Env) (s : InitState) (m : PartListUnion) :
    (Init.chatMessageStream env s m).2.1 = (Init.chatSession env s).2.1 := by
  rcases hcs : Init.chatSession env s with ⟨sess, s1, t1⟩
  cases hc : sess.chat <;> simp [Init.chatMessageStream, hcs, hc]

/-- Helper: the `chatSession` getter never touches the client handle. -/
theorem chatSession_genai (env : Env) (s : InitState) :
    (Init.chatSession env s).2.1.genai = s.genai := by
  cases hc : s.chat <;> cases hg : s.genai <;> cases hsess : s.session <;>
    simp [Init.chatSession, Init.createChatSession, hc, hg, hsess]

/-- Helper: `createChatSession` never touches the client handle. -/
theorem createChatSession_genai (env : Env) (s : InitState) :
    (Init.createChatSession env s).2.1.genai = s.genai := by
  cases hg : s.genai <;> simp [Init.createChatSession, hg]

/-- Helper: with the client handle present, `generateContent` leaves the
state unchanged. -/
theorem generateContent_state_of_some (env : Env) (s : InitState)
    (c : ContentListUnion) (cfg : Option Config) (g : GoogleGenAI)
    (hg : s.genai = some g) : (Init.generateContent env s c cfg).2.1 = s := by
  unfold Init.generateContent
  by_cases hk : s.apiKey = ""
  · simp [hk]
  · simp [hk, hg, Init.models]

/-- Helper: with the client handle present, `generateContentStream`
leaves the state unchanged. -/
theorem generateContentStream_state_of_some (env : Env) (s : InitState)
    (c : ContentListUnion) (cfg : Option Config) (g : GoogleGenAI)
    (hg : s.genai = some g) : (Init.generateContentStream env s c cfg).2.1 = s := by
  unfold Init.generateContentStream
  by_cases hk : s.apiKey = ""
  · simp [hk]
  · simp [hk, hg, Init.models]

/-- Helper: with the client handle present, `generateImages` leaves the
state unchanged. -/
theorem generateImages_state_of_some (env : Env) (s : InitState)
    (p : String) (cfg : Option Config) (g : GoogleGenAI)
    (hg : s.genai = some g) : (Init.generateImages env s p cfg).2.1 = s := by
  unfold Init.generateImages
  by_cases hk : s.apiKey = ""
  · simp [hk]
  · simp [hk, hg, Init.models]

/-- Helper: with the client handle present, `generateVideos` leaves the
state unchanged. -/
theorem generateVideos_state_of_some (env : Env) (s : InitState)
    (p : String) (cfg : Option Config) (g : GoogleGenAI)
    (hg : s.genai = some g) : (Init.generateVideos env s p cfg).2.1 = s := by
  unfold Init.generateVideos
  by_cases hk : s.apiKey = ""
  · simp [hk]
  · simp [hk, hg, Init.models]

/-- Helper: with the client handle present, `computeTokens` leaves the
state unchanged. -/
theorem computeTokens_state_of_some (env : Env) (s : InitState)
    (c : ContentListUnion) (cfg : Option Config) (g : GoogleGenAI)
    (hg : s.genai = some g) : (Init.computeTokens env s c cfg).2.1 = s := by
  unfold Init.computeTokens
  by_cases hk : s.apiKey = ""
  · simp [hk]
  · simp [hk, hg, Init.models]

/-- Helper: with the client handle present, `countTokens` leaves the
state unchanged. -/
theorem countTokens_state_of_some (env : Env) (s : InitState)
    (c : ContentListUnion) (cfg : Option Config) (g : GoogleGenAI)
    (hg : s.genai = some g) : (Init.countTokens env s c cfg).2.1 = s := by
  unfold Init.countTokens
  by_cases hk : s.apiKey = ""
  · simp [hk]
  · simp [hk, hg, Init.models]

/-- Helper: with the client handle present, `embedContent` leaves the
state unchanged. -/
theorem embedContent_state_of_some (env : Env) (s : InitState)
    (c : ContentListUnion) (cfg : Option Config) (g : GoogleGenAI)
    (hg : s.genai = some g) : (Init.embedContent env s c cfg).2.1 = s := by
  unfold Init.embedContent
  by_cases hk : s.apiKey = ""
  · simp [hk]
  · simp [hk, hg, Init.models]

/-- Helper: with the client handle present, reading the `models` accessor
leaves the state unchanged. -/
theorem getModels_state_of_some (env : Env) (s : InitState) (g : GoogleGenAI)
    (hg : s.genai = some g) : Init.step env s Op.getModels = s := by
  by_cases hk : s.apiKey = ""
  · simp [Init.step, Init.models, hk]
  · simp [Init.step, Init.models, hk, hg]

/-- Helper: `uploadFile` leaves the state unchanged. -/
theorem uploadFile_state (env : Env) (s : InitState) (f : FileArg) (cfg : Option Config) :
    (Init.uploadFile env s f cfg).2.1 = s := by
  cases hg : s.genai with
  | none => simp [Init.uploadFile, hg]
  | some g => cases hu : env.filesUpload g f cfg <;> simp [Init.uploadFile, hg, hu]

/-- Helper: `getFile` leaves the state unchanged. -/
theorem getFile_state (env : Env) (s : InitState) (n : String) (cfg : Option Config) :
    (Init.getFile env s n cfg).2.1 = s := by
  cases hg : s.genai with
  | none => simp [Init.getFile, hg]
  | some g => cases hu : env.filesGet g n cfg <;> simp [Init.getFile, hg, hu]

/-- Helper: `deleteFile` leaves the state unchanged. -/
theorem deleteFile_state (env : Env) (s : InitState) (n : String) (cfg : Option Config) :
    (Init.deleteFile env s n cfg).2.1 = s := by
  cases hg : s.genai with
  | none => simp [Init.deleteFile, hg]
  | some g => cases hu : env.filesDelete g n cfg <;> simp [Init.deleteFile, hg, hu]

/-- Helper: every facade operation preserves a present client handle. -/
theorem step_genai_of_some (env : Env) (s : InitState) (op : Op) (g : GoogleGenAI)
    (hg : s.genai = some g) : (Init.step env s op).genai = some g := by
  cases op with
  | setApiKey v => simpa [Init.step, Init.setApiKey] using hg
  | getModels => rw [getModels_state_of_some env s g hg]; exact hg
  | getChatSession =>
    show (Init.chatSession env s).2.1.genai = some g
    rw [chatSession_genai]; exact hg
  | newChatSession =>
    show (Init.createChatSession env s).2.1.genai = some g
    rw [createChatSession_genai]; exact hg
  | generateContent c cfg =>
    show (Init.generateContent env s c cfg).2.1.genai = some g
    rw [generateContent_state_of_some env s c cfg g hg]; exact hg
  | generateContentStream c cfg =>
    show (Init.generateContentStream env s c cfg).2.1.genai = some g
    rw [generateContentStream_state_of_some env s c cfg g hg]; exact hg
  | generateImages p cfg =>
    show (Init.generateImages env s p cfg).2.1.genai = some g
    rw [generateImages_state_of_some env s p cfg g hg]; exact hg
  | generateVideos p cfg =>
    show (Init.generateVideos env s p cfg).2.1.genai = some g
    rw [generateVideos_state_of_some env s p cfg g hg]; exact hg
  | computeTokens c cfg =>
    show (Init.computeTokens env s c cfg).2.1.genai = some g
    rw [computeTokens_state_of_some env s c cfg g hg]; exact hg
  | countTokens c cfg =>
    show (Init.countTokens env s c cfg).2.1.genai = some g
    rw [countTokens_state_of_some env s c cfg g hg]; exact hg
  | embedContent c cfg =>
    show (Init.embedContent env s c cfg).2.1.genai = some g
    rw [embedContent_state_of_some env s c cfg g hg]; exact hg
  | chatMessage m =>
    show (Init.chatMessage env s m).2.1.genai = some g
    rw [chatMessage_state, chatSession_genai]; exact hg
  | chatMessageStream m =>
    show (Init.chatMessageStream env s m).2.1.genai = some g
    rw [chatMessageStream_state, chatSession_genai]; exact hg
  | uploadFile f cfg =>
    show (Init.uploadFile env s f cfg).2.1.genai = some g
    rw [uploadFile_state]; exact hg
  | getFile n cfg =>
    show (Init.getFile env s n cfg).2.1.genai = some g
    rw [getFile_state]; exact hg
  | deleteFile n cfg =>
    show (Init.deleteFile env s n cfg).2.1.genai = some g
    rw [deleteFile_state]; exact hg

/-- Helper: a present client handle persists across any sequence of
operations. -/
theorem run_genai_of_some (env : Env) (s : InitState) (ops : List Op)
    (g : GoogleGenAI) (hg : s.genai = some g) :
    (Init.run env s ops).genai = some g := by
  induction ops generalizing s with
  | nil => simpa [Init.run] using hg
  | cons op rest ih =>
    have h1 := step_genai_of_some env s op g hg
    have h2 := ih (Init.step env s op) h1
    simpa [Init.run, List.foldl_cons] using h2

/-- Helper: an operation that leaves the session slot untouched satisfies
the single-slot property. -/
theorem slot_goal_of_preserved {env : Env} {s t : InitState}
    (h : t.session = s.session) :
    ((!s.session.isSome) || t.session.isSome) = true
  ∧ (t.session = s.session
     ∨ ∃ c, t.session = some { chat := c, id := env.uuids s.uuidCtr }) := by
  refine ⟨?_, Or.inl h⟩
  rw [h]
  cases s.session <;> simp

/-- Helper: an operation that installs a freshly tagged session satisfies
the single-slot property. -/
theorem slot_goal_of_fresh {env : Env} {s t : InitState}
    (h : ∃ c, t.session = some { chat := c, id := env.uuids s.uuidCtr }) :
    ((!s.session.isSome) || t.session.isSome) = true
  ∧ (t.session = s.session
     ∨ ∃ c, t.session = some { chat := c, id := env.uuids s.uuidCtr }) := by
  obtain ⟨c, hc⟩ := h
  refine ⟨?_, Or.inr ⟨c, hc⟩⟩
  rw [hc]
  cases s.session <;> simp

/-- Helper: on a state whose client handle is present, every operation
either leaves the session slot exactly as it was or overwrites it with the
single freshly tagged pair, and never clears it. -/
theorem step_session_slot_of_some (env : Env) (s : InitState) (op : Op)
    (g : GoogleGenAI) (hg : s.genai = some g) :
    ((!s.session.isSome) || (Init.step env s op).session.isSome) = true
  ∧ ((Init.step env s op).session = s.session
     ∨ ∃ c, (Init.step env s op).session
        = some { chat := c, id := env.uuids s.uuidCtr }) := by
  cases op with
  | setApiKey v => exact slot_goal_of_preserved rfl
  | getModels =>
    refine slot_goal_of_preserved ?_
    rw [getModels_state_of_some env s g hg]
  | getChatSession =>
    cases hsess : s.session with
    | some sess =>
      have hpres : (Init.step env s Op.getChatSession).session = some sess := by
        show (Init.chatSession env s).2.1.session = some sess
        exact (chatSession_preserves env s sess hsess).2
      rw [hpres]
      exact ⟨by simp, Or.inl rfl⟩
    | none =>
      obtain ⟨c, hc⟩ := chatSession_fresh env s hsess
      refine ⟨by simp, Or.inr ⟨c, ?_⟩⟩
      show (Init.chatSession env s).2.1.session = _
      exact hc
  | newChatSession =>
    refine slot_goal_of_fresh ?_
    exact createChatSession_fresh env s
  | generateContent c cfg =>
    refine slot_goal_of_preserved ?_
    rw [show Init.step env s (Op.generateContent c cfg) = (Init.generateContent env s c cfg).2.1 from rfl,
      generateContent_state_of_some env s c cfg g hg]
  | generateContentStream c cfg =>
    refine slot_goal_of_preserved ?_
    rw [show Init.step env s (Op.generateContentStream c cfg) = (Init.generateContentStream env s c cfg).2.1 from rfl,
      generateContentStream_state_of_some env s c cfg g hg]
  | generateImages p cfg =>
    refine slot_goal_of_preserved ?_
    rw [show Init.step env s (Op.generateImages p cfg) = (Init.generateImages env s p cfg).2.1 from rfl,
      generateImages_state_of_some env s p cfg g hg]
  | generateVideos p cfg =>
    refine slot_goal_of_preserved ?_
    rw [show Init.step env s (Op.generateVideos p cfg) = (Init.generateVideos env s p cfg).2.1 from rfl,
      generateVideos_state_of_some env s p cfg g hg]
  | computeTokens c cfg =>
    refine slot_goal_of_preserved ?_
    rw [show Init.step env s (Op.computeTokens c cfg) = (Init.computeTokens env s c cfg).2.1 from rfl,
      computeTokens_state_of_some env s c cfg g hg]
  | countTokens c cfg =>
    refine slot_goal_of_preserved ?_
    rw [show Init.step env s (Op.countTokens c cfg) = (Init.countTokens env s c cfg).2.1 from rfl,
      countTokens_state_of_some env s c cfg g hg]
  | embedContent c cfg =>
    refine slot_goal_of_preserved ?_
    rw [show Init.step env s (Op.embedContent c cfg) = (Init.embedContent env s c cfg).2.1 from rfl,
      embedContent_state_of_some env s c cfg g hg]
  | chatMessage m =>
    cases hsess : s.session with
    | some sess =>
      have hpres : (Init.step env s (Op.chatMessage m)).session = some sess := by
        show (Init.chatMessage env s m).2.1.session = some sess
        rw [chatMessage_state]
        exact (chatSession_preserves env s sess hsess).2
      rw [hpres]
      exact ⟨by simp, Or.inl rfl⟩
    | none =>
      obtain ⟨c, hc⟩ := chatSession_fresh env s hsess
      refine ⟨by simp, Or.inr ⟨c, ?_⟩⟩
      show (Init.chatMessage env s m).2.1.session = _
      rw [chatMessage_state]
      exact hc
  | chatMessageStream m =>
    cases hsess : s.session with
    | some sess =>
      have hpres : (Init.step env s (Op.chatMessageStream m)).session = some sess := by
        show (Init.chatMessageStream env s m).2.1.session = some sess
        rw [chatMessageStream_state]
        exact (chatSession_preserves env s sess hsess).2
      rw [hpres]
      exact ⟨by simp, Or.inl rfl⟩
    | none =>
      obtain ⟨c, hc⟩ := chatSession_fresh env s hsess
      refine ⟨by simp, Or.inr ⟨c, ?_⟩⟩
      show (Init.chatMessageStream env s m).2.1.session = _
      rw [chatMessageStream_state]
      exact hc
  | uploadFile f cfg =>
    refine slot_goal_of_preserved ?_
    rw [show Init.step env s (Op.uploadFile f cfg) = (Init.uploadFile env s f cfg).2.1 from rfl,
      uploadFile_state]
  | getFile n cfg =>
    refine slot_goal_of_preserved ?_
    rw [show Init.step env s (Op.getFile n cfg) = (Init.getFile env s n cfg).2.1 from rfl,
      getFile_state]
  | deleteFile n cfg =>
    refine slot_goal_of_preserved ?_
    rw [show Init.step env s (Op.deleteFile n cfg) = (Init.deleteFile env s n cfg).2.1 from rfl,
      deleteFile_state]

/-- C5: on any facade instance, along any sequence of operations, the
session slot always holds zero or one pair: the next operation either
leaves the cached pair exactly as it is or overwrites the one slot with
the single freshly tagged pair, and a populated slot is never cleared
(no second independent session, no close). -/
theorem single_session_slot (env : Env) (k m : String) (o : GoogleGenAIOptions)
    (c0 : Option GoogleGenAI) (ops : List Op) (op : Op) :
    ((!(Init.run env (Init.new k o c0 m) ops).session.isSome)
        || (Init.step env (Init.run env (Init.new k o c0 m) ops) op).session.isSome) = true
  ∧ ((Init.step env (Init.run env (Init.new k o c0 m) ops) op).session
        = (Init.run env (Init.new k o c0 m) ops).session
     ∨ ∃ c, (Init.step env (Init.run env (Init.new k o c0 m) ops) op).session
        = some { chat := c, id := env.uuids (Init.run env (Init.new k o c0 m) ops).uuidCtr }) :=
  step_session_slot_of_some env (Init.run env (Init.new k o c0 m) ops) op
    (GoogleGenAI.mk { o with apiKey := some k })
    (run_genai_of_some env (Init.new k o c0 m) ops
      (GoogleGenAI.mk { o with apiKey := some k }) rfl)

/-- C10: from the moment the constructor returns, the client handle is
the client eagerly built from the merged configuration, and it stays
exactly that handle (never null, never rebuilt) across every sequence of
operations — so the construct-if-absent branches never fire on an
instance. -/
theorem client_constant (env : Env) (k m : String) (o : GoogleGenAIOptions)
    (c : Option GoogleGenAI) (ops : List Op) :
    (Init.run env (Init.new k o c m) ops).genai
      = some (GoogleGenAI.mk { o with apiKey := some k }) :=
  run_genai_of_some env (Init.new k o c m) ops
    (GoogleGenAI.mk { o with apiKey := some k }) rfl

/-- C4: once the session slot is populated, every read of the
`chatSession` accessor returns the cached pair (same identifier) and
leaves the slot unchanged; an explicit `createChatSession` call overwrites
the single slot with a fresh pair whose identifier is the next generated
uuid, which differs from the cached identifier whenever the generator is
fresh. -/
theorem chatSession_stable_until_recreated (env : Env) (s : InitState) (sess : Session)
    (h : s.session = some sess) (hfresh : env.uuids s.uuidCtr ≠ sess.id) :
    (Init.chatSession env s).1 = sess
  ∧ (Init.chatSession env s).2.1.session = some sess
  ∧ (Init.createChatSession env s).2.1.session = some (Init.createChatSession env s).1
  ∧ (Init.createChatSession env s).1.id = env.uuids s.uuidCtr
  ∧ (Init.createChatSession env s).1.id ≠ sess.id := by
  have h12 := chatSession_preserves env s sess h
  have h4 : (Init.createChatSession env s).1.id = env.uuids s.uuidCtr := by
    cases hg : s.genai <;> simp [Init.createChatSession, hg]
  have h3 : (Init.createChatSession env s).2.1.session
      = some (Init.createChatSession env s).1 := by
    cases hg : s.genai <;> simp [Init.createChatSession, hg]
  refine ⟨h12.1, h12.2, h3, h4, ?_⟩
  rw [h4]
  exact hfresh

/-- C4 witness: on a concrete state with a populated session slot and a
fresh uuid generator, reading the accessor returns the cached pair. -/
theorem chatSession_stable_witness :
    sWithSession.session = some { chat := some 0, id := "orig-id" }
  ∧ envW.uuids sWithSession.uuidCtr ≠ "orig-id"
  ∧ (Init.chatSession envW sWithSession).1 = { chat := some 0, id := "orig-id" } := by
  refine ⟨rfl, by decide, ?_⟩
  exact (chatSession_stable_until_recreated envW sWithSession
    { chat := some 0, id := "orig-id" } rfl (by decide)).1
